import Mathlib

/-!
Shallow embedding of the booking core of the train-station API
(`train_station/models.py`, `train_station/serializers.py`,
`train_station/views.py`): the ticket validator, the availability
annotation, the atomic order/ticket creation path, and the list filters,
together with proofs of the specified properties.
-/

/-- Decidable equality for `Except` results, so validation outcomes can be
checked by evaluation. -/
instance {ε α : Type} [DecidableEq ε] [DecidableEq α] :
    DecidableEq (Except ε α) := fun
  | Except.error a, Except.error b =>
    if h : a = b then isTrue (by rw [h]) else isFalse (by simp [h])
  | Except.error _, Except.ok _ => isFalse (fun h => Except.noConfusion h)
  | Except.ok _, Except.error _ => isFalse (fun h => Except.noConfusion h)
  | Except.ok a, Except.ok b =>
    if h : a = b then isTrue (by rw [h]) else isFalse (by simp [h])

namespace TrainStation

/-- Embeds the fields of `Train` (models.py:72-91) that the booking logic
reads: `cargo_num` and `places_in_cargo` are plain `IntegerField`s (no
positivity validator anywhere in the model or serializer). -/
structure Train where
  cargo_num : Int
  places_in_cargo : Int
deriving DecidableEq, Repr

/-- Embeds the derived `Train.capacity` property (models.py:83-85). -/
def Train.capacity (t : Train) : Int :=
  t.cargo_num * t.places_in_cargo

/-- Which ticket attribute a validation error names: the loop in
`Ticket.validate_ticket` reports either the `cargo` or the `seat` field. -/
inductive TicketField where
  | cargo
  | seat
deriving DecidableEq, Repr

/-- A field-level validation error as raised by `Ticket.validate_ticket`
(models.py:165-172): the dict key names the offending ticket field and the
message carries the upper bound of the valid range `(1, bound)`. -/
structure FieldError where
  field : TicketField
  bound : Int
deriving DecidableEq, Repr

/-- Embeds `Ticket.validate_ticket` (models.py:157-172).  The Python loop
runs over `[(cargo, "cargo", "cargo_num"), (seat, "seat",
"places_in_cargo")]` in that order and raises on the first attribute whose
value is not in `1 <= value <= getattr(train, bound_attr)`; unrolled here
into the two successive checks. -/
def validate_ticket (cargo seat : Int) (train : Train) : Except FieldError Unit :=
  if ¬ (1 ≤ cargo ∧ cargo ≤ train.cargo_num) then
    Except.error ⟨TicketField.cargo, train.cargo_num⟩
  else if ¬ (1 ≤ seat ∧ seat ≤ train.places_in_cargo) then
    Except.error ⟨TicketField.seat, train.places_in_cargo⟩
  else
    Except.ok ()

/-- A timestamp with the resolution the code compares at
(`DateTimeField` values); Python `datetime` comparison is lexicographic on
(year, month, day, hour, minute, second). -/
structure DateTime where
  year : Nat
  month : Nat
  day : Nat
  hour : Nat
  minute : Nat
  second : Nat
deriving DecidableEq, Repr

/-- Lexicographic `<=` on timestamps, as Python's `datetime.__le__`. -/
def DateTime.ble (a b : DateTime) : Bool :=
  if a.year ≠ b.year then decide (a.year < b.year)
  else if a.month ≠ b.month then decide (a.month < b.month)
  else if a.day ≠ b.day then decide (a.day < b.day)
  else if a.hour ≠ b.hour then decide (a.hour < b.hour)
  else if a.minute ≠ b.minute then decide (a.minute < b.minute)
  else decide (a.second ≤ b.second)

/-- Propositional statement that `a` is strictly earlier than `b`
(lexicographic on the six components). -/
def DateTime.before (a b : DateTime) : Prop :=
  a.year < b.year ∨ (a.year = b.year ∧
    (a.month < b.month ∨ (a.month = b.month ∧
      (a.day < b.day ∨ (a.day = b.day ∧
        (a.hour < b.hour ∨ (a.hour = b.hour ∧
          (a.minute < b.minute ∨ (a.minute = b.minute ∧
            a.second < b.second)))))))))

instance (a b : DateTime) : Decidable (DateTime.before a b) := by
  unfold DateTime.before; infer_instance

/-- The calendar-date component of a timestamp, as extracted by the
`departure_time__date` lookup in `JourneyViewSet.get_queryset`. -/
def DateTime.date (d : DateTime) : Nat × Nat × Nat :=
  (d.year, d.month, d.day)

/-- Embeds `Route` (models.py:38-62): `source`/`destination` hold the
foreign-key ids of the two stations, `distance` is a plain
`IntegerField`. -/
structure Route where
  id : Nat
  source : Int
  destination : Int
  distance : Int
deriving DecidableEq, Repr

/-- Embeds `Route.clean` (models.py:51-55): Django model equality is by
primary key, so `self.source == self.destination` compares station ids. -/
def Route.clean (r : Route) : Except String Unit :=
  if r.source = r.destination then
    Except.error "Source and destination stations cannot be the same"
  else
    Except.ok ()

/-- Embeds `Journey` (models.py:106-131) with the fields the booking logic
reads: the route foreign key, the referenced train (dereferenced as
`journey.train` in the code), and the two timestamps. -/
structure Journey where
  id : Nat
  route_id : Int
  train : Train
  departure_time : DateTime
  arrival_time : DateTime
deriving DecidableEq, Repr

/-- Embeds `Journey.clean` (models.py:121-125). -/
def Journey.clean (j : Journey) : Except String Unit :=
  if DateTime.ble j.arrival_time j.departure_time then
    Except.error "Arrival time must be after departure time"
  else
    Except.ok ()

/-- Embeds a persisted `Ticket` row (models.py:147-155). -/
structure Ticket where
  cargo : Int
  seat : Int
  journey_id : Nat
  order_id : Nat
deriving DecidableEq, Repr

/-- Embeds a persisted `Order` row (models.py:134-144); `created_at` plays
no role in the verified properties. -/
structure Order where
  id : Nat
  user : Nat
deriving DecidableEq, Repr

/-- The persistent state the booking operations read and write: the
journey, order and ticket tables. -/
structure DB where
  journeys : List Journey
  orders : List Order
  tickets : List Ticket
deriving DecidableEq, Repr

/-- Foreign-key dereference of a journey id against the journey table. -/
def findJourney (db : DB) (jid : Nat) : Option Journey :=
  db.journeys.find? fun j => j.id == jid

/-- The tickets persisted for a given journey (the reverse foreign-key set
`journey.tickets`, i.e. `Count("tickets")`'s underlying rows). -/
def journey_tickets (db : DB) (j : Journey) : List Ticket :=
  db.tickets.filter fun t => t.journey_id == j.id

/-- Embeds the `tickets_available` annotation of `JourneyViewSet.queryset`
(views.py:271-280): `F("train__cargo_num") * F("train__places_in_cargo") -
Count("tickets")`, evaluated against the current ticket table. -/
def tickets_available (db : DB) (j : Journey) : Int :=
  j.train.cargo_num * j.train.places_in_cargo -
    ((journey_tickets db j).length : Int)

/-- The annotated journey listing: every journey row paired with its
freshly computed `tickets_available` value. -/
def annotate_tickets_available (db : DB) : List (Journey × Int) :=
  db.journeys.map fun j => (j, tickets_available db j)

/-- A ticket request in an order submission, as accepted by
`TicketSerializer` (serializers.py:142-155): `{cargo, seat, journey}`. -/
structure TicketReq where
  cargo : Int
  seat : Int
  journey_id : Nat
deriving DecidableEq, Repr

/-- The error outcomes of the order-creation path: a field-level range
violation from `Ticket.validate_ticket`, a `(journey, cargo, seat)`
uniqueness violation from the `unique_together` constraint
(models.py:197-198), a dangling journey foreign key, or an empty ticket
list (rejected by `allow_empty=False`, serializers.py:205). -/
inductive CreateErr where
  | fieldError (e : FieldError)
  | uniqueConstraint (journey_id : Nat) (cargo seat : Int)
  | notFound (journey_id : Nat)
  | emptyTickets
deriving DecidableEq, Repr

/-- Embeds `TicketSerializer.validate` (serializers.py:143-151): resolve
the ticket's journey and run `Ticket.validate_ticket` against its train. -/
def ticket_serializer_validate (db : DB) (req : TicketReq) :
    Except CreateErr Unit :=
  match findJourney db req.journey_id with
  | none => Except.error (CreateErr.notFound req.journey_id)
  | some j =>
    match validate_ticket req.cargo req.seat j.train with
    | Except.error e => Except.error (CreateErr.fieldError e)
    | Except.ok _ => Except.ok ()

/-- Whether a persisted ticket occupies the same `(journey, cargo, seat)`
key as the request — the collision the `unique_together` constraint
rejects. -/
def dup_key (req : TicketReq) (t : Ticket) : Bool :=
  t.journey_id == req.journey_id && t.cargo == req.cargo && t.seat == req.seat

/-- Embeds `Ticket.objects.create` through the overridden `Ticket.save`
(models.py:182-192): `full_clean()` first runs `clean` — which calls
`Ticket.validate_ticket` (models.py:174-180) — and then `validate_unique`
for the `unique_together ("journey", "cargo", "seat")` constraint; only
then is the row inserted. -/
def ticket_create (db : DB) (order_id : Nat) (req : TicketReq) :
    Except CreateErr DB :=
  match findJourney db req.journey_id with
  | none => Except.error (CreateErr.notFound req.journey_id)
  | some j =>
    match validate_ticket req.cargo req.seat j.train with
    | Except.error e => Except.error (CreateErr.fieldError e)
    | Except.ok _ =>
      if db.tickets.any (dup_key req) then
        Except.error
          (CreateErr.uniqueConstraint req.journey_id req.cargo req.seat)
      else
        Except.ok
          { db with
            tickets :=
              db.tickets ++ [⟨req.cargo, req.seat, req.journey_id, order_id⟩] }

/-- The `for ticket_data in tickets_data` loop of `OrderSerializer.create`
(serializers.py:215-216): insert the tickets one by one, stopping at the
first failure. -/
def insert_tickets (db : DB) (order_id : Nat) :
    List TicketReq → Except CreateErr DB
  | [] => Except.ok db
  | req :: rest =>
    match ticket_create db order_id req with
    | Except.error e => Except.error e
    | Except.ok db' => insert_tickets db' order_id rest

/-- Embeds the body of `OrderSerializer.create` (serializers.py:211-217):
create the `Order` row, then insert every requested ticket against it.
The fresh order id models the auto-generated primary key. -/
def order_create (db : DB) (user : Nat) (reqs : List TicketReq) :
    Except CreateErr DB :=
  let oid := db.orders.length
  let db1 := { db with orders := db.orders ++ [⟨oid, user⟩] }
  insert_tickets db1 oid reqs

/-- Embeds the whole order-submission path: serializer validation
(`allow_empty=False` plus `TicketSerializer.validate` on every request,
run by `is_valid` before `create`), then `OrderSerializer.create` under
`@transaction.atomic()` — on any failure inside the transaction the
pre-transaction state is restored.  Returns the observable state together
with the error, if any. -/
def order_serializer_save (db : DB) (user : Nat) (reqs : List TicketReq) :
    DB × Option CreateErr :=
  if reqs.isEmpty then (db, some CreateErr.emptyTickets)
  else
    match reqs.findSome? (fun r =>
        match ticket_serializer_validate db r with
        | Except.error e => some e
        | Except.ok _ => none) with
    | some e => (db, some e)
    | none =>
      match order_create db user reqs with
      | Except.ok db' => (db', none)
      | Except.error e => (db, some e)

/-- Python's `str.split(sep)` for a one-character separator: always yields
at least one (possibly empty) piece, one more per separator occurrence. -/
def split_on_char (sep : Char) : List Char → List (List Char)
  | [] => [[]]
  | c :: rest =>
    match split_on_char sep rest with
    | [] => [[]]
    | s :: ss => if c = sep then [] :: s :: ss else (c :: s) :: ss

/-- Python's `int()` on a digit string: at least one digit, base 10.
Fails (raises `ValueError`) on anything else. -/
def parse_nat (cs : List Char) : Option Nat :=
  if cs.isEmpty then none
  else
    cs.foldl
      (fun acc c =>
        match acc with
        | none => none
        | some a => if c.isDigit then some (a * 10 + (c.toNat - 48)) else none)
      (some 0)

/-- Python's `int()` including an optional leading minus sign. -/
def parse_int : List Char → Option Int
  | '-' :: rest => (parse_nat rest).map fun n => -(n : Int)
  | cs => (parse_nat cs).map fun n => (n : Int)

/-- Embeds `RouteViewSet._params_to_ints` (views.py:92-95):
`[int(str_id) for str_id in qs.split(",")]`; `none` models the
`ValueError` a malformed id raises. -/
def params_to_ints (qs : String) : Option (List Int) :=
  (split_on_char ',' qs.data).mapM parse_int

/-- One `if param: queryset = queryset.filter(field__in=ids)` step of
`RouteViewSet.get_queryset` (views.py:103-109): the filter applies only
when the parameter is present and truthy (non-empty). -/
def apply_in_filter (field : Route → Int) (param : Option String)
    (qs : List Route) : Option (List Route) :=
  match param with
  | none => some qs
  | some s =>
    if s.data.isEmpty then some qs
    else
      match params_to_ints s with
      | none => none
      | some ids => some (qs.filter fun r => ids.contains (field r))

/-- Embeds `RouteViewSet.get_queryset` (views.py:97-111): the optional
`source` and `destination` id-list filters followed by `.distinct()`. -/
def route_get_queryset (routes : List Route)
    (source destination : Option String) : Option (List Route) := do
  let q1 ← apply_in_filter Route.source source routes
  let q2 ← apply_in_filter Route.destination destination q1
  some q2.dedup

/-- Embeds `datetime.strptime(s, "%Y-%m-%d").date()`
(views.py:291-293): three dash-separated numeric components with the
month and day in calendar range; `none` models the `ValueError` raised on
malformed input. -/
def parse_date (s : String) : Option (Nat × Nat × Nat) :=
  match split_on_char '-' s.data with
  | [y, m, d] =>
    match parse_nat y, parse_nat m, parse_nat d with
    | some yn, some mn, some dn =>
      if 1 ≤ mn ∧ mn ≤ 12 ∧ 1 ≤ dn ∧ dn ≤ 31 then some (yn, mn, dn)
      else none
    | _, _, _ => none
  | _ => none

/-- Embeds `JourneyViewSet.get_queryset` (views.py:284-303): the optional
`departure_time` filter compares only the calendar-date component
(`departure_time__date`), and the optional `route` filter is an exact
route-id match; both gated on truthy parameters. -/
def journey_get_queryset (journeys : List Journey)
    (departure_time route : Option String) : Option (List Journey) := do
  let q1 ←
    match departure_time with
    | none => some journeys
    | some s =>
      if s.data.isEmpty then some journeys
      else do
        let d ← parse_date s
        some (journeys.filter fun j => j.departure_time.date == d)
  match route with
  | none => some q1
  | some s =>
    if s.data.isEmpty then some q1
    else do
      let rid ← parse_int s.data
      some (q1.filter fun j => j.route_id == rid)

/-- The no-double-booking invariant enforced by
`unique_together = ("journey", "cargo", "seat")` (models.py:198): no two
persisted tickets share the same journey, cargo and seat. -/
def NoDoubleBooking (db : DB) : Prop :=
  db.tickets.Pairwise fun t1 t2 =>
    ¬ (t1.journey_id = t2.journey_id ∧ t1.cargo = t2.cargo ∧
        t1.seat = t2.seat)

/-! ### Concrete fixtures used to instantiate the theorems -/

/-- A train with 2 cargos of 3 places (capacity 6). -/
def sample_train : Train := ⟨2, 3⟩

/-- A journey on `sample_train`, departing 2024-08-22T10:00:00. -/
def sample_journey : Journey :=
  ⟨1, 1, sample_train, ⟨2024, 8, 22, 10, 0, 0⟩, ⟨2024, 8, 23, 15, 0, 0⟩⟩

/-- A state holding `sample_journey` with no orders and no tickets. -/
def sample_db : DB := ⟨[sample_journey], [], []⟩

/-- A state where seat (cargo 1, seat 1) of `sample_journey` is already
booked. -/
def sample_db_booked : DB := ⟨[sample_journey], [⟨0, 7⟩], [⟨1, 1, 1, 0⟩]⟩

/-- A journey on a train with a single cargo of 2 places. -/
def full_journey : Journey :=
  ⟨1, 1, ⟨1, 2⟩, ⟨2024, 8, 22, 10, 0, 0⟩, ⟨2024, 8, 23, 15, 0, 0⟩⟩

/-- A state where both places of `full_journey` are booked. -/
def full_db : DB := ⟨[full_journey], [⟨0, 7⟩], [⟨1, 1, 1, 0⟩, ⟨1, 2, 1, 0⟩]⟩

/-- A journey whose train was created with a negative `cargo_num` —
nothing in the model or serializer forbids it. -/
def neg_journey : Journey :=
  ⟨1, 1, ⟨-1, 1⟩, ⟨2024, 8, 22, 10, 0, 0⟩, ⟨2024, 8, 23, 15, 0, 0⟩⟩

/-- A state holding `neg_journey`, with no tickets at all. -/
def neg_db : DB := ⟨[neg_journey], [], []⟩

/-- Three routes with source station ids 1, 2 and 3 and a common
destination. -/
def sample_routes : List Route := [⟨1, 1, 9, 5⟩, ⟨2, 2, 9, 5⟩, ⟨3, 3, 9, 5⟩]

/-- Journeys departing 2024-08-28T10:00, 2024-08-29T10:00 and
2024-08-28T23:59 (the first and third share a calendar date with
different times of day). -/
def sample_journeys : List Journey :=
  [⟨1, 1, sample_train, ⟨2024, 8, 28, 10, 0, 0⟩, ⟨2024, 8, 29, 15, 0, 0⟩⟩,
   ⟨2, 1, sample_train, ⟨2024, 8, 29, 10, 0, 0⟩, ⟨2024, 8, 30, 15, 0, 0⟩⟩,
   ⟨3, 2, sample_train, ⟨2024, 8, 28, 23, 59, 0⟩, ⟨2024, 8, 29, 15, 0, 0⟩⟩]

/-! ### Supporting lemmas -/

theorem DateTime.eq_iff (a b : DateTime) :
    a = b ↔ (a.year = b.year ∧ a.month = b.month ∧ a.day = b.day ∧
      a.hour = b.hour ∧ a.minute = b.minute ∧ a.second = b.second) := by
  cases a; cases b; simp

theorem DateTime.ble_eq_false_iff (a b : DateTime) :
    DateTime.ble a b = false ↔ DateTime.before b a := by
  unfold DateTime.ble DateTime.before
  split_ifs <;> simp_all <;> omega

/-! ### Claims about the ticket validator -/

/-- Claim C1: for every train and ticket request, `validate_ticket`
passes exactly when `1 <= cargo <= cargo_num` and
`1 <= seat <= places_in_cargo`; on violation it reports an error naming an
out-of-range field together with that field's valid upper bound. -/
theorem validate_ticket_correct (c s : Int) (t : Train) :
    (validate_ticket c s t = Except.ok () ↔
      (1 ≤ c ∧ c ≤ t.cargo_num ∧ 1 ≤ s ∧ s ≤ t.places_in_cargo)) ∧
    (∀ e, validate_ticket c s t = Except.error e →
      ((e.field = TicketField.cargo ∧ e.bound = t.cargo_num ∧
          ¬ (1 ≤ c ∧ c ≤ t.cargo_num)) ∨
       (e.field = TicketField.seat ∧ e.bound = t.places_in_cargo ∧
          ¬ (1 ≤ s ∧ s ≤ t.places_in_cargo)))) := by
  unfold validate_ticket
  split_ifs with h1 h2 <;> simp_all

theorem validate_ticket_correct_witness :
    validate_ticket 2 3 ⟨20, 10⟩ = Except.ok () :=
  (validate_ticket_correct 2 3 ⟨20, 10⟩).1.mpr (by decide)

/-- Claim C10: the validator checks the cargo bound before the seat bound,
so when both are out of range the reported error names the cargo field. -/
theorem validate_ticket_checks_cargo_first (c s : Int) (t : Train)
    (hc : ¬ (1 ≤ c ∧ c ≤ t.cargo_num))
    (hs : ¬ (1 ≤ s ∧ s ≤ t.places_in_cargo)) :
    validate_ticket c s t =
      Except.error ⟨TicketField.cargo, t.cargo_num⟩ := by
  unfold validate_ticket
  simp [hc]

theorem validate_ticket_checks_cargo_first_witness :
    validate_ticket 0 11 ⟨20, 10⟩ = Except.error ⟨TicketField.cargo, 20⟩ :=
  validate_ticket_checks_cargo_first 0 11 ⟨20, 10⟩ (by decide) (by decide)

/-! ### Claims about the model-level validation hooks -/

/-- Claim C6: `Route.clean` rejects a route whose source station equals
its destination station with a validation error, and accepts any route
with distinct stations (in particular one with a positive distance). -/
theorem route_clean_spec (r : Route) :
    (Route.clean r = Except.ok () ↔ r.source ≠ r.destination) ∧
    (r.source = r.destination →
      Route.clean r =
        Except.error "Source and destination stations cannot be the same") := by
  unfold Route.clean
  split_ifs with h <;> simp_all

theorem route_clean_spec_witness :
    Route.clean ⟨1, 1, 2, 100⟩ = Except.ok () ∧
    Route.clean ⟨2, 3, 3, 100⟩ =
      Except.error "Source and destination stations cannot be the same" :=
  ⟨(route_clean_spec ⟨1, 1, 2, 100⟩).1.mpr (by decide),
   (route_clean_spec ⟨2, 3, 3, 100⟩).2 (by decide)⟩

/-- Claim C7: `Journey.clean` fails with a validation error whenever
`arrival_time <= departure_time` and passes exactly when the arrival is
strictly after the departure. -/
theorem journey_clean_spec (j : Journey) :
    (Journey.clean j = Except.ok () ↔
      DateTime.before j.departure_time j.arrival_time) ∧
    (DateTime.ble j.arrival_time j.departure_time = true →
      Journey.clean j =
        Except.error "Arrival time must be after departure time") := by
  unfold Journey.clean
  cases hb : DateTime.ble j.arrival_time j.departure_time with
  | false =>
    rw [DateTime.ble_eq_false_iff] at hb
    simp [hb]
  | true =>
    constructor
    · simp only [if_pos rfl]
      constructor
      · intro h; exact absurd h (by simp)
      · intro h
        rw [← DateTime.ble_eq_false_iff] at h
        rw [h] at hb
        exact absurd hb (by simp)
    · intro _; simp

theorem journey_clean_spec_witness :
    Journey.clean ⟨1, 1, ⟨2, 3⟩, ⟨2024, 8, 22, 10, 0, 0⟩,
        ⟨2024, 8, 23, 15, 0, 0⟩⟩ = Except.ok () ∧
    Journey.clean ⟨1, 1, ⟨2, 3⟩, ⟨2024, 8, 22, 10, 0, 0⟩,
        ⟨2024, 8, 22, 9, 0, 0⟩⟩ =
      Except.error "Arrival time must be after departure time" :=
  ⟨(journey_clean_spec _).1.mpr (by decide),
   (journey_clean_spec _).2 (by decide)⟩

/-! ### Claims about the availability annotation -/

/-- Claim C2: the journey listing pairs every journey, and only the
journeys of the current state, with the derived value
`train.cargo_num * train.places_in_cargo` minus the number of tickets
currently persisted for that journey; the value is a function of the
current ticket table (recomputed per query), not a stored column. -/
theorem tickets_available_listing (db : DB) (j : Journey) (n : Int) :
    (j, n) ∈ annotate_tickets_available db ↔
      (j ∈ db.journeys ∧
        n = j.train.cargo_num * j.train.places_in_cargo -
            ((journey_tickets db j).length : Int)) := by
  unfold annotate_tickets_available tickets_available
  simp only [List.mem_map, Prod.mk.injEq]
  constructor
  · rintro ⟨a, ha, rfl, rfl⟩
    exact ⟨ha, rfl⟩
  · rintro ⟨hj, rfl⟩
    exact ⟨j, hj, rfl, rfl⟩

theorem tickets_available_listing_witness :
    (sample_journey, 6) ∈ annotate_tickets_available sample_db :=
  (tickets_available_listing sample_db sample_journey 6).mpr (by decide)

/-! ### Claims about the list filters -/

theorem apply_in_filter_some (field : Route → Int) (s : String)
    (ids : List Int) (qs : List Route) (hp : params_to_ints s = some ids)
    (hne : s.data.isEmpty = false) :
    apply_in_filter field (some s) qs =
      some (qs.filter fun r => ids.contains (field r)) := by
  unfold apply_in_filter
  simp [hne, hp]

/-- Claim C8: the route listing returns exactly the routes whose source
station id belongs to the parsed `source` id list and whose destination
station id belongs to the parsed `destination` id list, each condition
applied only when its parameter is provided, both ANDed when both are,
and the result has no duplicates. -/
theorem route_get_queryset_spec (routes : List Route) (s d : String)
    (sids dids : List Int)
    (hs : params_to_ints s = some sids) (hsne : s.data.isEmpty = false)
    (hd : params_to_ints d = some dids) (hdne : d.data.isEmpty = false) :
    (∃ out, route_get_queryset routes (some s) (some d) = some out ∧
      out.Nodup ∧
      ∀ r, r ∈ out ↔ r ∈ routes ∧ r.source ∈ sids ∧ r.destination ∈ dids) ∧
    (∃ out, route_get_queryset routes (some s) none = some out ∧
      out.Nodup ∧ ∀ r, r ∈ out ↔ r ∈ routes ∧ r.source ∈ sids) ∧
    (∃ out, route_get_queryset routes none (some d) = some out ∧
      out.Nodup ∧ ∀ r, r ∈ out ↔ r ∈ routes ∧ r.destination ∈ dids) ∧
    (∃ out, route_get_queryset routes none none = some out ∧
      out.Nodup ∧ ∀ r, r ∈ out ↔ r ∈ routes) := by
  have hnone : ∀ qs, apply_in_filter Route.source none qs = some qs :=
    fun _ => rfl
  have e1 : route_get_queryset routes (some s) (some d) =
      some (((routes.filter fun r => sids.contains r.source).filter
          fun r => dids.contains r.destination).dedup) := by
    unfold route_get_queryset
    rw [apply_in_filter_some Route.source s sids routes hs hsne]
    simp only [Option.bind_eq_bind, Option.some_bind]
    rw [apply_in_filter_some Route.destination d dids _ hd hdne]
    rfl
  have e2 : route_get_queryset routes (some s) none =
      some ((routes.filter fun r => sids.contains r.source).dedup) := by
    unfold route_get_queryset
    rw [apply_in_filter_some Route.source s sids routes hs hsne]
    rfl
  have e3 : route_get_queryset routes none (some d) =
      some ((routes.filter fun r => dids.contains r.destination).dedup) := by
    unfold route_get_queryset
    rw [hnone routes]
    simp only [Option.bind_eq_bind, Option.some_bind]
    rw [apply_in_filter_some Route.destination d dids _ hd hdne]
    rfl
  have e4 : route_get_queryset routes none none = some routes.dedup := rfl
  refine ⟨⟨_, e1, List.nodup_dedup _, fun r => ?_⟩,
    ⟨_, e2, List.nodup_dedup _, fun r => ?_⟩,
    ⟨_, e3, List.nodup_dedup _, fun r => ?_⟩,
    ⟨_, e4, List.nodup_dedup _, fun r => ?_⟩⟩
  · simp only [List.mem_dedup, List.mem_filter, List.elem_iff, and_assoc]
  · simp [List.mem_dedup, List.mem_filter, List.elem_iff]
  · simp [List.mem_dedup, List.mem_filter, List.elem_iff]
  · simp [List.mem_dedup]

/-- Claim C9: the journey listing with a `departure_time` parameter
returns exactly the journeys whose departure falls on that calendar date,
whatever their time-of-day, and a `route` parameter is ANDed as an exact
route-id match. -/
theorem journey_get_queryset_spec (journeys : List Journey) (s r : String)
    (dt : Nat × Nat × Nat) (rid : Int)
    (hs : parse_date s = some dt) (hsne : s.data.isEmpty = false)
    (hr : parse_int r.data = some rid) (hrne : r.data.isEmpty = false) :
    (∃ out, journey_get_queryset journeys (some s) none = some out ∧
      ∀ j, j ∈ out ↔ j ∈ journeys ∧ j.departure_time.date = dt) ∧
    (∃ out, journey_get_queryset journeys (some s) (some r) = some out ∧
      ∀ j, j ∈ out ↔
        j ∈ journeys ∧ j.departure_time.date = dt ∧ j.route_id = rid) := by
  have e1 : journey_get_queryset journeys (some s) none =
      some (journeys.filter fun j => j.departure_time.date == dt) := by
    unfold journey_get_queryset
    simp [hsne, hs]
  have e2 : journey_get_queryset journeys (some s) (some r) =
      some ((journeys.filter fun j => j.departure_time.date == dt).filter
        fun j => j.route_id == rid) := by
    unfold journey_get_queryset
    simp [hsne, hs, hrne, hr]
  refine ⟨⟨_, e1, fun j => ?_⟩, ⟨_, e2, fun j => ?_⟩⟩
  · simp [List.mem_filter]
  · simp only [List.mem_filter, beq_iff_eq, and_assoc]

theorem route_get_queryset_spec_witness :
    ∃ out, route_get_queryset sample_routes (some "2,3") none = some out ∧
      out.Nodup ∧
      ∀ r, r ∈ out ↔ r ∈ sample_routes ∧ r.source ∈ [(2 : Int), 3] :=
  (route_get_queryset_spec sample_routes "2,3" "9" [2, 3] [9]
    (by decide) (by decide) (by decide) (by decide)).2.1

theorem journey_get_queryset_spec_witness :
    ∃ out, journey_get_queryset sample_journeys (some "2024-08-28") none =
        some out ∧
      ∀ j, j ∈ out ↔ j ∈ sample_journeys ∧
        j.departure_time.date = (2024, 8, 28) :=
  (journey_get_queryset_spec sample_journeys "2024-08-28" "1"
    (2024, 8, 28) 1 (by decide) (by decide) (by decide) (by decide)).1

/-! ### Claims about order creation -/

theorem findSome?_eq_none_forall {α β : Type} (f : α → Option β) :
    ∀ (l : List α), l.findSome? f = none → ∀ x ∈ l, f x = none := by
  intro l
  induction l with
  | nil => intro _ x hx; simp at hx
  | cons a as ih =>
    intro h x hx
    rw [List.findSome?_cons] at h
    cases hfa : f a with
    | some b => rw [hfa] at h; simp at h
    | none =>
      rw [hfa] at h
      rcases List.mem_cons.mp hx with rfl | hx'
      · exact hfa
      · exact ih h x hx'

theorem ticket_create_ok_shape (db : DB) (oid : Nat) (req : TicketReq)
    (db' : DB) (h : ticket_create db oid req = Except.ok db') :
    db'.journeys = db.journeys ∧ db'.orders = db.orders ∧
    db'.tickets =
      db.tickets ++ [⟨req.cargo, req.seat, req.journey_id, oid⟩] := by
  unfold ticket_create at h
  split at h
  · simp at h
  · split at h
    · simp at h
    · split at h
      · simp at h
      · simp only [Except.ok.injEq] at h
        subst h
        simp

theorem ticket_create_ok_not_dup (db : DB) (oid : Nat) (req : TicketReq)
    (db' : DB) (h : ticket_create db oid req = Except.ok db') :
    db.tickets.any (dup_key req) = false := by
  unfold ticket_create at h
  split at h
  · simp at h
  · split at h
    · simp at h
    · split at h
      · simp at h
      · rename_i hcond
        simpa using hcond

theorem insert_tickets_ok_shape (oid : Nat) (reqs : List TicketReq) :
    ∀ (db db' : DB), insert_tickets db oid reqs = Except.ok db' →
      db'.journeys = db.journeys ∧ db'.orders = db.orders ∧
      db'.tickets = db.tickets ++
        reqs.map fun req =>
          (⟨req.cargo, req.seat, req.journey_id, oid⟩ : Ticket) := by
  induction reqs with
  | nil =>
    intro db db' h
    simp only [insert_tickets, Except.ok.injEq] at h
    subst h; simp
  | cons req rest ih =>
    intro db db' h
    unfold insert_tickets at h
    cases hc : ticket_create db oid req with
    | error e => rw [hc] at h; simp at h
    | ok dbm =>
      rw [hc] at h
      obtain ⟨hj, ho, ht⟩ := ih dbm db' h
      obtain ⟨hj2, ho2, ht2⟩ := ticket_create_ok_shape db oid req dbm hc
      refine ⟨hj.trans hj2, ho.trans ho2, ?_⟩
      rw [ht, ht2]
      simp

theorem insert_tickets_fails_of_dup (oid : Nat) (reqs : List TicketReq) :
    ∀ (db : DB) (r : TicketReq), r ∈ reqs →
      db.tickets.any (dup_key r) = true →
      ∃ e, insert_tickets db oid reqs = Except.error e := by
  induction reqs with
  | nil => intro db r hr _; simp at hr
  | cons q rest ih =>
    intro db r hr hdup
    cases hc : ticket_create db oid q with
    | error e => exact ⟨e, by unfold insert_tickets; rw [hc]⟩
    | ok dbm =>
      rcases List.mem_cons.mp hr with rfl | hr'
      · have := ticket_create_ok_not_dup db oid r dbm hc
        rw [hdup] at this
        simp at this
      · obtain ⟨_, _, ht2⟩ := ticket_create_ok_shape db oid q dbm hc
        have hdup' : dbm.tickets.any (dup_key r) = true := by
          rw [ht2, List.any_append, hdup]
          simp
        obtain ⟨e, he⟩ := ih dbm r hr' hdup'
        exact ⟨e, by unfold insert_tickets; rw [hc]; exact he⟩

/-- Claim C3: order creation is all-or-nothing.  Whenever the submission
reports an error — in particular when any ticket of the batch fails
validation or insertion — the observable state is exactly the
pre-transaction state (zero order rows and zero ticket rows added); on
success one order row and all the requested ticket rows are persisted
together. -/
theorem order_create_all_or_nothing (db : DB) (user : Nat)
    (reqs : List TicketReq) :
    ((order_serializer_save db user reqs).2.isSome = true →
        (order_serializer_save db user reqs).1 = db) ∧
    ((order_serializer_save db user reqs).2 = none →
        (order_serializer_save db user reqs).1 =
          { journeys := db.journeys,
            orders := db.orders ++ [⟨db.orders.length, user⟩],
            tickets := db.tickets ++
              reqs.map fun r =>
                (⟨r.cargo, r.seat, r.journey_id, db.orders.length⟩ :
                  Ticket) }) ∧
    ((∃ r ∈ reqs, ticket_serializer_validate db r ≠ Except.ok () ∨
        db.tickets.any (dup_key r) = true) →
      (order_serializer_save db user reqs).1 = db ∧
      (order_serializer_save db user reqs).2.isSome = true) := by
  unfold order_serializer_save
  split_ifs with hemp
  · exact ⟨fun _ => rfl, fun h => by simp at h, fun _ => ⟨rfl, rfl⟩⟩
  · cases hfs : reqs.findSome? (fun r =>
        match ticket_serializer_validate db r with
        | Except.error e => some e
        | Except.ok _ => none) with
    | some e =>
      exact ⟨fun _ => rfl, fun h => by simp at h, fun _ => ⟨rfl, rfl⟩⟩
    | none =>
      have hvalid : ∀ r ∈ reqs, ticket_serializer_validate db r =
          Except.ok () := by
        intro r hr
        have := findSome?_eq_none_forall _ reqs hfs r hr
        cases hv : ticket_serializer_validate db r with
        | error e => rw [hv] at this; simp at this
        | ok u => cases u; rfl
      have horder : order_create db user reqs =
          insert_tickets
            { db with orders := db.orders ++ [⟨db.orders.length, user⟩] }
            db.orders.length reqs := rfl
      cases hoc : order_create db user reqs with
      | ok db' =>
        refine ⟨fun h => by simp at h, fun _ => ?_, fun hbad => ?_⟩
        · obtain ⟨hj, ho, ht⟩ :=
            insert_tickets_ok_shape db.orders.length reqs _ db'
              (horder ▸ hoc)
          cases db'
          simp_all
        · exfalso
          obtain ⟨r, hr, hbad⟩ := hbad
          rcases hbad with hbad | hbad
          · exact hbad (hvalid r hr)
          · obtain ⟨e, he⟩ :=
              insert_tickets_fails_of_dup db.orders.length reqs
                { db with orders := db.orders ++ [⟨db.orders.length, user⟩] }
                r hr hbad
            rw [← horder, hoc] at he
            simp at he
      | error e =>
        exact ⟨fun _ => rfl, fun h => by simp at h, fun _ => ⟨rfl, rfl⟩⟩

theorem order_create_all_or_nothing_witness :
    (order_serializer_save sample_db 7 [⟨1, 1, 1⟩, ⟨1, 0, 1⟩, ⟨1, 2, 1⟩]).1 =
      sample_db ∧
    (order_serializer_save sample_db 7
      [⟨1, 1, 1⟩, ⟨1, 0, 1⟩, ⟨1, 2, 1⟩]).2.isSome = true :=
  (order_create_all_or_nothing sample_db 7
      [⟨1, 1, 1⟩, ⟨1, 0, 1⟩, ⟨1, 2, 1⟩]).2.2
    ⟨⟨1, 0, 1⟩, by decide, Or.inl (by decide)⟩

theorem ticket_create_preserves (db : DB) (oid : Nat) (req : TicketReq)
    (db' : DB) (h : ticket_create db oid req = Except.ok db')
    (hnd : NoDoubleBooking db) : NoDoubleBooking db' := by
  obtain ⟨_, _, ht⟩ := ticket_create_ok_shape db oid req db' h
  have hdup := ticket_create_ok_not_dup db oid req db' h
  unfold NoDoubleBooking at hnd ⊢
  rw [ht, List.pairwise_append]
  refine ⟨hnd, List.pairwise_singleton _ _, ?_⟩
  intro t1 ht1 t2 ht2
  simp only [List.mem_singleton] at ht2
  subst ht2
  simp only [List.any_eq_false, dup_key, Bool.and_eq_true, beq_iff_eq,
    not_and] at hdup
  intro hcon
  obtain ⟨h1, h2, h3⟩ := hcon
  exact hdup t1 ht1 ⟨by simpa using h1, by simpa using h2⟩ (by simpa using h3)

theorem insert_tickets_preserves (oid : Nat) (reqs : List TicketReq) :
    ∀ (db db' : DB), insert_tickets db oid reqs = Except.ok db' →
      NoDoubleBooking db → NoDoubleBooking db' := by
  induction reqs with
  | nil =>
    intro db db' h hnd
    simp only [insert_tickets, Except.ok.injEq] at h
    subst h; exact hnd
  | cons q rest ih =>
    intro db db' h hnd
    unfold insert_tickets at h
    cases hc : ticket_create db oid q with
    | error e => rw [hc] at h; simp at h
    | ok dbm =>
      rw [hc] at h
      exact ih dbm db' h (ticket_create_preserves db oid q dbm hc hnd)

/-- Claim C4: the order-creation path preserves the invariant that no two
persisted tickets share a `(journey, cargo, seat)` triple, and an attempt
to create a ticket duplicating an existing triple never succeeds: it
fails — with the `UniqueConstraint` error whenever the request itself is
structurally valid — and inserts nothing. -/
theorem no_double_booking_invariant (db : DB) (user oid : Nat)
    (reqs : List TicketReq) (req : TicketReq) :
    (NoDoubleBooking db →
      NoDoubleBooking (order_serializer_save db user reqs).1) ∧
    (db.tickets.any (dup_key req) = true →
      (∀ db', ticket_create db oid req ≠ Except.ok db') ∧
      (ticket_serializer_validate db req = Except.ok () →
        ticket_create db oid req =
          Except.error
            (CreateErr.uniqueConstraint req.journey_id req.cargo
              req.seat))) := by
  constructor
  · intro hnd
    unfold order_serializer_save
    split_ifs with hemp
    · exact hnd
    · cases hfs : reqs.findSome? (fun r =>
          match ticket_serializer_validate db r with
          | Except.error e => some e
          | Except.ok _ => none) with
      | some e => exact hnd
      | none =>
        have horder : order_create db user reqs =
            insert_tickets
              { db with orders := db.orders ++ [⟨db.orders.length, user⟩] }
              db.orders.length reqs := rfl
        cases hoc : order_create db user reqs with
        | ok db' =>
          exact insert_tickets_preserves db.orders.length reqs
            { db with orders := db.orders ++ [⟨db.orders.length, user⟩] }
            db' (horder ▸ hoc) hnd
        | error e => exact hnd
  · intro hdup
    constructor
    · intro db' hok
      have := ticket_create_ok_not_dup db oid req db' hok
      rw [hdup] at this
      simp at this
    · intro hval
      unfold ticket_serializer_validate at hval
      cases hf : findJourney db req.journey_id with
      | none => simp only [hf] at hval; exact absurd hval (by simp)
      | some j =>
        simp only [hf] at hval
        cases hv : validate_ticket req.cargo req.seat j.train with
        | error e => simp only [hv] at hval; exact absurd hval (by simp)
        | ok u =>
          cases u
          unfold ticket_create
          simp [hf, hv, hdup]

theorem no_double_booking_invariant_witness :
    (∀ db', ticket_create sample_db_booked 1 ⟨1, 1, 1⟩ ≠ Except.ok db') ∧
    ticket_create sample_db_booked 1 ⟨1, 1, 1⟩ =
      Except.error (CreateErr.uniqueConstraint 1 1 1) := by
  have h :=
    (no_double_booking_invariant sample_db_booked 7 1 [] ⟨1, 1, 1⟩).2
      (by decide)
  exact ⟨h.1, h.2 (by decide)⟩

/-! ### Claims about the availability invariant -/

/-- Counterexample to claim C5 as stated: in a state whose journey's train
was created with `cargo_num = -1` — `cargo_num` is a plain `IntegerField`
with no positivity validation anywhere — every persisted ticket is in
range and no two tickets share a (cargo, seat) pair (vacuously: there are
no tickets), yet `tickets_available` is negative. -/
theorem tickets_available_nonneg_cex :
    (∀ t ∈ journey_tickets neg_db neg_journey,
        1 ≤ t.cargo ∧ t.cargo ≤ neg_journey.train.cargo_num ∧
        1 ≤ t.seat ∧ t.seat ≤ neg_journey.train.places_in_cargo) ∧
    ((journey_tickets neg_db neg_journey).map fun t =>
        (t.cargo, t.seat)).Nodup ∧
    tickets_available neg_db neg_journey < 0 :=
  ⟨by decide, by decide, by decide⟩

/-- Claim C5 (amended): for a journey whose train has nonnegative
`cargo_num` and `places_in_cargo`, if every persisted ticket of the
journey is in range and no two of them occupy the same (cargo, seat)
position, then `tickets_available` is nonnegative, and it is exactly 0
when every position of the train carries a ticket. -/
theorem tickets_available_nonneg (db : DB) (j : Journey)
    (hc : 0 ≤ j.train.cargo_num) (hp : 0 ≤ j.train.places_in_cargo)
    (hin : ∀ t ∈ journey_tickets db j,
        1 ≤ t.cargo ∧ t.cargo ≤ j.train.cargo_num ∧
        1 ≤ t.seat ∧ t.seat ≤ j.train.places_in_cargo)
    (hnd : ((journey_tickets db j).map fun t => (t.cargo, t.seat)).Nodup) :
    0 ≤ tickets_available db j ∧
    ((∀ c s : Int, 1 ≤ c → c ≤ j.train.cargo_num → 1 ≤ s →
        s ≤ j.train.places_in_cargo →
        ∃ t ∈ journey_tickets db j, t.cargo = c ∧ t.seat = s) →
      tickets_available db j = 0) := by
  have hIcc : ∀ a : Int, 0 ≤ a → ((Finset.Icc (1 : Int) a).card : Int) = a := by
    intro a ha
    rw [Int.card_Icc]
    omega
  have hlen : ((journey_tickets db j).map fun t => (t.cargo, t.seat)).length
      = (journey_tickets db j).length := List.length_map _ _
  have hsub : ((journey_tickets db j).map fun t =>
      (t.cargo, t.seat)).toFinset ⊆
      Finset.Icc (1 : Int) j.train.cargo_num ×ˢ
        Finset.Icc (1 : Int) j.train.places_in_cargo := by
    intro x hx
    rw [List.mem_toFinset, List.mem_map] at hx
    obtain ⟨t, ht, rfl⟩ := hx
    obtain ⟨h1, h2, h3, h4⟩ := hin t ht
    rw [Finset.mem_product, Finset.mem_Icc, Finset.mem_Icc]
    exact ⟨⟨h1, h2⟩, h3, h4⟩
  have hcard : (journey_tickets db j).length ≤
      (Finset.Icc (1 : Int) j.train.cargo_num ×ˢ
        Finset.Icc (1 : Int) j.train.places_in_cargo).card := by
    calc (journey_tickets db j).length
        = ((journey_tickets db j).map fun t => (t.cargo, t.seat)).length :=
          hlen.symm
      _ = ((journey_tickets db j).map fun t =>
            (t.cargo, t.seat)).toFinset.card :=
          (List.toFinset_card_of_nodup hnd).symm
      _ ≤ _ := Finset.card_le_card hsub
  have hprod : ((Finset.Icc (1 : Int) j.train.cargo_num ×ˢ
      Finset.Icc (1 : Int) j.train.places_in_cargo).card : Int) =
      j.train.cargo_num * j.train.places_in_cargo := by
    rw [Finset.card_product]
    push_cast
    rw [hIcc _ hc, hIcc _ hp]
  constructor
  · unfold tickets_available
    have : ((journey_tickets db j).length : Int) ≤
        j.train.cargo_num * j.train.places_in_cargo := by
      rw [← hprod]
      exact_mod_cast hcard
    omega
  · intro hfull
    have hsup : Finset.Icc (1 : Int) j.train.cargo_num ×ˢ
        Finset.Icc (1 : Int) j.train.places_in_cargo ⊆
        ((journey_tickets db j).map fun t => (t.cargo, t.seat)).toFinset := by
      intro x hx
      rw [Finset.mem_product, Finset.mem_Icc, Finset.mem_Icc] at hx
      obtain ⟨⟨h1, h2⟩, h3, h4⟩ := hx
      obtain ⟨t, ht, hc', hs'⟩ := hfull x.1 x.2 h1 h2 h3 h4
      rw [List.mem_toFinset, List.mem_map]
      refine ⟨t, ht, ?_⟩
      rw [hc', hs']
    have hcard2 : (Finset.Icc (1 : Int) j.train.cargo_num ×ˢ
        Finset.Icc (1 : Int) j.train.places_in_cargo).card ≤
        (journey_tickets db j).length := by
      calc (Finset.Icc (1 : Int) j.train.cargo_num ×ˢ
            Finset.Icc (1 : Int) j.train.places_in_cargo).card
          ≤ ((journey_tickets db j).map fun t =>
              (t.cargo, t.seat)).toFinset.card := Finset.card_le_card hsup
        _ = ((journey_tickets db j).map fun t => (t.cargo, t.seat)).length :=
            List.toFinset_card_of_nodup hnd
        _ = (journey_tickets db j).length := hlen
    unfold tickets_available
    have e1 : ((journey_tickets db j).length : Int) ≤
        j.train.cargo_num * j.train.places_in_cargo := by
      rw [← hprod]
      exact_mod_cast hcard
    have e2 : j.train.cargo_num * j.train.places_in_cargo ≤
        ((journey_tickets db j).length : Int) := by
      rw [← hprod]
      exact_mod_cast hcard2
    omega

theorem tickets_available_nonneg_witness :
    0 ≤ tickets_available full_db full_journey ∧
    tickets_available full_db full_journey = 0 := by
  have h := tickets_available_nonneg full_db full_journey (by decide)
    (by decide) (by decide) (by decide)
  refine ⟨h.1, h.2 ?_⟩
  intro c s h1 h2 h3 h4
  have h2' : c ≤ 1 := by simpa [full_journey] using h2
  have h4' : s ≤ 2 := by simpa [full_journey] using h4
  have hc : c = 1 := le_antisymm h2' h1
  have hs : s = 1 ∨ s = 2 := by omega
  subst hc
  rcases hs with rfl | rfl
  · exact ⟨⟨1, 1, 1, 0⟩, by decide, rfl, rfl⟩
  · exact ⟨⟨1, 2, 1, 0⟩, by decide, rfl, rfl⟩

end TrainStation
